import Mathlib

/-!
Shallow embedding of `lsst::pex::exceptions::Exception`
(src/src/Exception.cc) in Lean 4.

An `std::ostream` is modelled in two ways:
* as a `String` accumulator, where every `<<` appends text (the pure
  model, `addToStream`);
* as an `OStream` whose writes may fail, where each C++ output statement
  is one `write` and a failing write propagates like a thrown C++
  exception, via `Except` (the fallible model, `addToStreamE`).

`char const*` fields are modelled as `String`, `int` as `Int`,
`std::vector<Tracepoint>` as `List Tracepoint`.
-/

namespace pexExcept

/-- A traceback entry: file, line, function and message, as aggregated by
`Tracepoint(file, line, func, message)` in the header and used field by
field in `Exception.cc`. -/
structure Tracepoint where
  _file : String
  _line : Int
  _func : String
  _msg : String
  deriving Repr, DecidableEq

/-- The exception object: the C++ type tag `_type` and the traceback
vector `_traceback`. -/
structure Exception where
  _type : String
  _traceback : List Tracepoint
  deriving Repr, DecidableEq

/-- `Exception::Exception(type, file, line, func, message)`: sets `_type`
and pushes a single `Tracepoint(file, line, func, message)` onto the
(empty) traceback. -/
def Exception.ctor (type : String) (file : String) (line : Int)
    (func : String) (message : String) : Exception :=
  { _type := type, _traceback := [⟨file, line, func, message⟩] }

/-- `Exception::addMessage(file, line, func, message)`: pushes one
`Tracepoint` onto the end of `_traceback`. -/
def Exception.addMessage (e : Exception) (file : String) (line : Int)
    (func : String) (message : String) : Exception :=
  { e with _traceback := e._traceback ++ [⟨file, line, func, message⟩] }

/-- `Exception::getTraceback()`: returns the traceback vector. -/
def Exception.getTraceback (e : Exception) : List Tracepoint :=
  e._traceback

/-- `Exception::getType()`: returns `_type`. -/
def Exception.getType (e : Exception) : String :=
  e._type

/-- `Exception::clone()`: `new Exception(*this)`, the copy constructor;
`std::vector` members have value semantics, so this is a deep copy of the
traceback. -/
def Exception.clone (e : Exception) : Exception :=
  e

/-- The text the statement
`stream << "0: " << _type << " thrown at " << file << ":" << line
<< " in " << func << std::endl` writes. -/
def thrownLine (type : String) (t : Tracepoint) : String :=
  "0: " ++ type ++ " thrown at " ++ t._file ++ ":" ++ toString t._line
    ++ " in " ++ t._func ++ "\n"

/-- The text `stream << i << ": Rethrown at " << file << ":" << line
<< " in " << func << std::endl` writes for a loop index `i`. -/
def rethrownLine (i : Nat) (t : Tracepoint) : String :=
  toString i ++ ": Rethrown at " ++ t._file ++ ":" ++ toString t._line
    ++ " in " ++ t._func ++ "\n"

/-- The text `stream << i << ": Message: " << msg << std::endl` writes
(the `i = 0` statement spells the index as a literal `"0"`, which prints
the same characters). -/
def messageLine (i : Nat) (t : Tracepoint) : String :=
  toString i ++ ": Message: " ++ t._msg ++ "\n"

/-- The `for (size_t i = 1; i < _traceback.size(); ++i)` loop of
`Exception::addToStream`, in the pure stream model: `tb` is the slice
`_traceback[i..]` still to print and `i` the current index. -/
def addToStreamLoop (tb : List Tracepoint) (i : Nat) (stream : String) :
    String :=
  match tb with
  | [] => stream
  | t :: rest =>
      addToStreamLoop rest (i + 1) (stream ++ rethrownLine i t ++ messageLine i t)

/-- `Exception::addToStream(stream)` in the pure stream model: if the
traceback is non-empty, write the two entry-0 lines, then the loop over
indices `1 .. size-1`; the written stream is returned. -/
def Exception.addToStream (e : Exception) (stream : String) : String :=
  match e._traceback with
  | [] => stream
  | t0 :: rest =>
      addToStreamLoop rest 1
        (stream ++ thrownLine e._type t0 ++ messageLine 0 t0)

/-- A fallible output stream: `buf` is the text written so far and
`budget` injects failures — `none` means writes always succeed, `some k`
means the next `k` writes succeed and the one after fails (as a C++
stream operation may throw). -/
structure OStream where
  buf : String
  budget : Option Nat
  deriving Repr, DecidableEq

/-- One C++ output statement on a fallible stream: either appends to the
buffer or fails, in which case the C++ exception propagates (`Except.error`). -/
def OStream.write (s : OStream) (x : String) : Except Unit OStream :=
  match s.budget with
  | none => Except.ok ⟨s.buf ++ x, none⟩
  | some 0 => Except.error ()
  | some (k + 1) => Except.ok ⟨s.buf ++ x, some k⟩

/-- The `for` loop of `Exception::addToStream` in the fallible stream
model: each iteration performs the two output statements in order; a
failure propagates (there is no `try`/`catch` in `addToStream`). -/
def addToStreamELoop (tb : List Tracepoint) (i : Nat) (s : OStream) :
    Except Unit OStream :=
  match tb with
  | [] => Except.ok s
  | t :: rest => do
      let s1 ← s.write (rethrownLine i t)
      let s2 ← s1.write (messageLine i t)
      addToStreamELoop rest (i + 1) s2

/-- `Exception::addToStream(stream)` in the fallible stream model: the
two entry-0 output statements, then the loop; any write failure
propagates to the caller, uncaught. -/
def Exception.addToStreamE (e : Exception) (s : OStream) :
    Except Unit OStream :=
  match e._traceback with
  | [] => Except.ok s
  | t0 :: rest => do
      let s1 ← s.write (thrownLine e._type t0)
      let s2 ← s1.write (messageLine 0 t0)
      addToStreamELoop rest 1 s2

/-- `Exception::what()`: `try { ostringstream s; addToStream(s); return
buffer; } catch (...) { return _type; }`. The `budget` argument injects
the possible internal failure the `catch (...)` guards against. -/
def Exception.whatE (e : Exception) (budget : Option Nat) : String :=
  match e.addToStreamE ⟨"", budget⟩ with
  | Except.ok s => s.buf
  | Except.error _ => e._type

/-- `Exception::what()` when no internal failure occurs. -/
def Exception.what (e : Exception) : String :=
  e.whatE none

/-- `operator<<(stream, e)`: `return e.addToStream(stream);`, pure
model. -/
def streamInsert (stream : String) (e : Exception) : String :=
  e.addToStream stream

/-- `operator<<(stream, e)` in the fallible stream model. -/
def streamInsertE (stream : OStream) (e : Exception) : Except Unit OStream :=
  e.addToStreamE stream

/-! ## Spec-side rendering format (from the spec's words, for claim C1) -/

/-- Spec: entry 0's first line, `"0: <kind> thrown at <file>:<line> in <func>"`
(without the terminating newline). -/
def specThrownLine (kind : String) (t : Tracepoint) : String :=
  "0: " ++ kind ++ " thrown at " ++ t._file ++ ":" ++ toString t._line
    ++ " in " ++ t._func

/-- Spec: entry i's first line for `i ≥ 1`, `"i: Rethrown at <file>:<line> in <func>"`. -/
def specRethrownLine (i : Nat) (t : Tracepoint) : String :=
  toString i ++ ": Rethrown at " ++ t._file ++ ":" ++ toString t._line
    ++ " in " ++ t._func

/-- Spec: entry i's second line, `"i: Message: <message>"`. -/
def specMessageLine (i : Nat) (t : Tracepoint) : String :=
  toString i ++ ": Message: " ++ t._msg

/-- Spec: the list of report lines, two per tracepoint, in traceback
order: entry 0 gets the thrown/message pair, each later entry i the
rethrown/message pair. -/
def specLines (e : Exception) : List String :=
  match e._traceback with
  | [] => []
  | t0 :: rest =>
      specThrownLine e._type t0 :: specMessageLine 0 t0 ::
        (List.enumFrom 1 rest).flatMap
          (fun p => [specRethrownLine p.1 p.2, specMessageLine p.1 p.2])

/-- Spec: each line terminated by a newline, concatenated in order. -/
def terminated (lines : List String) : String :=
  lines.foldr (fun l acc => l ++ "\n" ++ acc) ""

/-- One `addMessage` call's arguments: file, line, func, message. -/
structure Ctx where
  file : String
  line : Int
  func : String
  message : String

/-- The `Tracepoint` an `addMessage` call with these arguments pushes. -/
def Ctx.toTracepoint (c : Ctx) : Tracepoint :=
  ⟨c.file, c.line, c.func, c.message⟩

/-- A sequence of `addMessage` calls, applied left to right. -/
def applyContexts (e : Exception) (ctxs : List Ctx) : Exception :=
  ctxs.foldl (fun acc c => acc.addMessage c.file c.line c.func c.message) e

/-- The public operations of the class, as acting on the object's state:
`addMessage` mutates; `getTraceback`, `addToStream`, `what`, `getType`
and `clone` are `const` member functions and leave the object unchanged. -/
inductive Op where
  | addContext (file : String) (line : Int) (func : String) (message : String)
  | getTracebackOp
  | renderOp
  | displayOp
  | kindOp
  | copyOp

/-- The state after one operation. -/
def applyOp (e : Exception) : Op → Exception
  | Op.addContext file line func message => e.addMessage file line func message
  | Op.getTracebackOp => e
  | Op.renderOp => e
  | Op.displayOp => e
  | Op.kindOp => e
  | Op.copyOp => e

/-- The state after a sequence of operations. -/
def runOps (e : Exception) (ops : List Op) : Exception :=
  ops.foldl applyOp e

/-! ## Helper lemmas -/

lemma thrownLine_eq (kind : String) (t : Tracepoint) :
    thrownLine kind t = specThrownLine kind t ++ "\n" := by
  simp [thrownLine, specThrownLine, String.append_assoc]

lemma rethrownLine_eq (i : Nat) (t : Tracepoint) :
    rethrownLine i t = specRethrownLine i t ++ "\n" := by
  simp [rethrownLine, specRethrownLine, String.append_assoc]

lemma messageLine_eq (i : Nat) (t : Tracepoint) :
    messageLine i t = specMessageLine i t ++ "\n" := by
  simp [messageLine, specMessageLine, String.append_assoc]

lemma terminated_cons (l : String) (ls : List String) :
    terminated (l :: ls) = l ++ "\n" ++ terminated ls := rfl

/-- The rendering loop appends, after the stream contents so far, exactly
the newline-terminated rethrown/message line pairs of the remaining
tracepoints, indexed from `i`. -/
lemma addToStreamLoop_eq (tb : List Tracepoint) (i : Nat) (b : String) :
    addToStreamLoop tb i b =
      b ++ terminated ((List.enumFrom i tb).flatMap
        (fun p => [specRethrownLine p.1 p.2, specMessageLine p.1 p.2])) := by
  induction tb generalizing i b with
  | nil => simp [addToStreamLoop, terminated, String.append_empty]
  | cons t rest ih =>
      rw [addToStreamLoop, ih, List.enumFrom_cons, List.flatMap_cons]
      simp only [List.cons_append, List.nil_append, terminated_cons,
        rethrownLine_eq, messageLine_eq, String.append_assoc]

/-- `addToStream` appends, after the stream contents so far, exactly the
newline-terminated spec lines. -/
lemma addToStream_eq (e : Exception) (s : String) :
    e.addToStream s = s ++ terminated (specLines e) := by
  obtain ⟨ty, tb⟩ := e
  cases tb with
  | nil => simp [Exception.addToStream, specLines, terminated,
      String.append_empty]
  | cons t0 rest =>
      show addToStreamLoop rest 1 (s ++ thrownLine ty t0 ++ messageLine 0 t0) = _
      rw [addToStreamLoop_eq]
      show _ = s ++ terminated (specThrownLine ty t0 :: specMessageLine 0 t0 ::
        (List.enumFrom 1 rest).flatMap
          (fun p => [specRethrownLine p.1 p.2, specMessageLine p.1 p.2]))
      simp only [terminated_cons, thrownLine_eq, messageLine_eq,
        String.append_assoc]

lemma specLines_length (e : Exception) :
    (specLines e).length = 2 * e._traceback.length := by
  obtain ⟨ty, tb⟩ := e
  cases tb with
  | nil => simp [specLines]
  | cons t0 rest =>
      show (specThrownLine ty t0 :: specMessageLine 0 t0 ::
        (List.enumFrom 1 rest).flatMap
          (fun p => [specRethrownLine p.1 p.2, specMessageLine p.1 p.2])).length
        = 2 * (t0 :: rest).length
      simp only [List.length_cons, List.length_flatMap]
      have hm : ((List.enumFrom 1 rest).map
          (List.length ∘ fun p => [specRethrownLine p.1 p.2, specMessageLine p.1 p.2]))
          = (List.enumFrom 1 rest).map (fun _ => 2) := by
        apply List.map_congr_left
        intro p _
        rfl
      rw [hm]
      simp [List.enumFrom_length, List.length_cons, Nat.mul_succ]
      omega

/-- On a never-failing stream the fallible rendering loop succeeds and
writes exactly what the pure loop writes. -/
lemma addToStreamELoop_none (tb : List Tracepoint) (i : Nat) (b : String) :
    addToStreamELoop tb i ⟨b, none⟩ =
      Except.ok ⟨addToStreamLoop tb i b, none⟩ := by
  induction tb generalizing i b with
  | nil => rfl
  | cons t rest ih =>
      show addToStreamELoop rest (i + 1)
        ⟨b ++ rethrownLine i t ++ messageLine i t, none⟩ = _
      rw [ih]
      rfl

/-- On a never-failing stream `addToStream` succeeds and writes exactly
what the pure model writes. -/
lemma addToStreamE_none (e : Exception) (b : String) :
    e.addToStreamE ⟨b, none⟩ = Except.ok ⟨e.addToStream b, none⟩ := by
  obtain ⟨ty, tb⟩ := e
  cases tb with
  | nil => rfl
  | cons t0 rest =>
      show addToStreamELoop rest 1
        ⟨b ++ thrownLine ty t0 ++ messageLine 0 t0, none⟩ = _
      rw [addToStreamELoop_none]
      rfl

/-- A sequence of `addMessage` calls appends exactly the corresponding
tracepoints, in call order, and leaves `_type` unchanged. -/
lemma applyContexts_spec (e : Exception) (ctxs : List Ctx) :
    (applyContexts e ctxs)._traceback
        = e._traceback ++ ctxs.map Ctx.toTracepoint
      ∧ (applyContexts e ctxs)._type = e._type := by
  induction ctxs generalizing e with
  | nil => simp [applyContexts]
  | cons c rest ih =>
      have h := ih (e.addMessage c.file c.line c.func c.message)
      constructor
      · rw [applyContexts, List.foldl_cons]
        rw [show List.foldl
            (fun acc c => acc.addMessage c.file c.line c.func c.message)
            (e.addMessage c.file c.line c.func c.message) rest
          = applyContexts (e.addMessage c.file c.line c.func c.message) rest
          from rfl]
        rw [h.1]
        simp [Exception.addMessage, Ctx.toTracepoint]
      · rw [applyContexts, List.foldl_cons]
        rw [show List.foldl
            (fun acc c => acc.addMessage c.file c.line c.func c.message)
            (e.addMessage c.file c.line c.func c.message) rest
          = applyContexts (e.addMessage c.file c.line c.func c.message) rest
          from rfl]
        rw [h.2]
        rfl

/-- A single operation only ever appends to the traceback. -/
lemma applyOp_suffix (e : Exception) (op : Op) :
    ∃ t, (applyOp e op)._traceback = e._traceback ++ t := by
  cases op with
  | addContext file line func message =>
      exact ⟨[⟨file, line, func, message⟩], rfl⟩
  | getTracebackOp => exact ⟨[], (List.append_nil _).symm⟩
  | renderOp => exact ⟨[], (List.append_nil _).symm⟩
  | displayOp => exact ⟨[], (List.append_nil _).symm⟩
  | kindOp => exact ⟨[], (List.append_nil _).symm⟩
  | copyOp => exact ⟨[], (List.append_nil _).symm⟩

/-- A sequence of operations only ever appends to the traceback. -/
lemma runOps_suffix (e : Exception) (ops : List Op) :
    ∃ t, (runOps e ops)._traceback = e._traceback ++ t := by
  induction ops generalizing e with
  | nil => exact ⟨[], (List.append_nil _).symm⟩
  | cons op rest ih =>
      obtain ⟨t1, h1⟩ := applyOp_suffix e op
      obtain ⟨t2, h2⟩ := ih (applyOp e op)
      refine ⟨t1 ++ t2, ?_⟩
      rw [show runOps e (op :: rest) = runOps (applyOp e op) rest from rfl,
        h2, h1, List.append_assoc]

/-- A successful write appends exactly its argument to the buffer. -/
lemma OStream.write_ok {st : OStream} {x : String} {s2 : OStream}
    (h : st.write x = Except.ok s2) : s2.buf = st.buf ++ x := by
  obtain ⟨b, budget⟩ := st
  cases budget with
  | none =>
      simp only [OStream.write] at h
      cases h
      rfl
  | some k =>
      cases k with
      | zero => exact Except.noConfusion h
      | succ k =>
          simp only [OStream.write] at h
          cases h
          rfl

lemma exceptBind_ok {α β : Type} (a : α) (f : α → Except Unit β) :
    (Except.ok a >>= f) = f a := rfl

lemma exceptBind_error {α β : Type} (u : Unit) (f : α → Except Unit β) :
    ((Except.error u : Except Unit α) >>= f) = Except.error u := rfl

/-- If the fallible rendering loop succeeds, it wrote exactly what the
pure loop writes. -/
lemma addToStreamELoop_ok (tb : List Tracepoint) :
    ∀ (i : Nat) (st s2 : OStream),
      addToStreamELoop tb i st = Except.ok s2 →
      s2.buf = addToStreamLoop tb i st.buf := by
  induction tb with
  | nil =>
      intro i st s2 h
      simp only [addToStreamELoop] at h
      cases h
      rfl
  | cons t rest ih =>
      intro i st s2 h
      simp only [addToStreamELoop] at h
      cases h1 : st.write (rethrownLine i t) with
      | error u =>
          rw [h1] at h
          simp only [exceptBind_error] at h
          exact Except.noConfusion h
      | ok s1 =>
          rw [h1] at h
          simp only [exceptBind_ok] at h
          cases h2 : s1.write (messageLine i t) with
          | error u =>
              rw [h2] at h
              simp only [exceptBind_error] at h
              exact Except.noConfusion h
          | ok sm =>
              rw [h2] at h
              simp only [exceptBind_ok] at h
              rw [ih (i + 1) sm s2 h, OStream.write_ok h2, OStream.write_ok h1]
              rfl

/-- If the fallible `addToStream` succeeds, it wrote exactly what the
pure model writes. -/
lemma addToStreamE_ok (e : Exception) (st s2 : OStream)
    (h : e.addToStreamE st = Except.ok s2) :
    s2.buf = e.addToStream st.buf := by
  obtain ⟨ty, tb⟩ := e
  cases tb with
  | nil =>
      simp only [Exception.addToStreamE] at h
      cases h
      rfl
  | cons t0 rest =>
      simp only [Exception.addToStreamE] at h
      cases h1 : st.write (thrownLine ty t0) with
      | error u =>
          rw [h1] at h
          simp only [exceptBind_error] at h
          exact Except.noConfusion h
      | ok s1 =>
          rw [h1] at h
          simp only [exceptBind_ok] at h
          cases h2 : s1.write (messageLine 0 t0) with
          | error u =>
              rw [h2] at h
              simp only [exceptBind_error] at h
              exact Except.noConfusion h
          | ok sm =>
              rw [h2] at h
              simp only [exceptBind_ok] at h
              rw [addToStreamELoop_ok rest 1 sm s2 h,
                OStream.write_ok h2, OStream.write_ok h1]
              rfl

/-- Sanity check against the spec's worked example: a two-entry
traceback renders to the exact four expected lines. -/
lemma render_worked_example :
    ((Exception.ctor "Exception" "a.cc" 10 "f" "boom").addMessage
        "b.cc" 20 "g" "context").addToStream ""
      = "0: Exception thrown at a.cc:10 in f\n0: Message: boom\n"
        ++ "1: Rethrown at b.cc:20 in g\n1: Message: context\n" := by
  rfl

/-! ## The claims -/

/-- C1: for every Error with a non-empty traceback, `render` (that is,
`addToStream`) writes to the stream exactly the newline-terminated lines
`specLines` — two lines per tracepoint in traceback order, entry 0 as
`"0: <kind> thrown at <file>:<line> in <func>"` and `"0: Message: <message>"`,
entry i (i ≥ 1) as `"i: Rethrown at <file>:<line> in <func>"` and
`"i: Message: <message>"`. -/
theorem render_format (e : Exception) (s : String)
    (h : e.getTraceback ≠ []) :
    e.addToStream s = s ++ terminated (specLines e)
      ∧ (specLines e).length = 2 * e.getTraceback.length :=
  ⟨addToStream_eq e s, specLines_length e⟩

/-- Witness for C1 at the spec's worked single-entry example. -/
theorem render_format_witness :
    (Exception.ctor "Exception" "a.cc" 10 "f" "boom").getTraceback ≠ []
      ∧ ((Exception.ctor "Exception" "a.cc" 10 "f" "boom").addToStream ""
          = "" ++ terminated (specLines (Exception.ctor "Exception" "a.cc" 10 "f" "boom"))
        ∧ (specLines (Exception.ctor "Exception" "a.cc" 10 "f" "boom")).length
          = 2 * (Exception.ctor "Exception" "a.cc" 10 "f" "boom").getTraceback.length) :=
  ⟨by decide, render_format (Exception.ctor "Exception" "a.cc" 10 "f" "boom") ""
    (by decide)⟩

/-- C2: the constructor produces a traceback holding exactly one
tracepoint built from the file/line/func/message arguments, and
`getType` returns the given kind. -/
theorem ctor_traceback_kind (type file : String) (line : Int)
    (func message : String) :
    (Exception.ctor type file line func message).getTraceback
        = [⟨file, line, func, message⟩]
      ∧ (Exception.ctor type file line func message).getType = type :=
  ⟨rfl, rfl⟩

/-- C3: a sequence of N `addMessage` calls on a freshly constructed
Error yields a traceback of length N+1 whose entries are the original
entry followed by the appended entries in call order (earlier entries
unchanged), and the kind is unchanged; for any Error, the calls append
exactly their tracepoints and leave the kind alone. -/
theorem addContext_append_only (type file : String) (line : Int)
    (func message : String) (ctxs : List Ctx) (e : Exception) :
    (applyContexts (Exception.ctor type file line func message) ctxs).getTraceback
        = (Exception.ctor type file line func message).getTraceback
            ++ ctxs.map Ctx.toTracepoint
      ∧ (applyContexts (Exception.ctor type file line func message)
          ctxs).getTraceback.length = ctxs.length + 1
      ∧ (applyContexts (Exception.ctor type file line func message) ctxs).getType
          = type
      ∧ (applyContexts e ctxs).getTraceback
          = e.getTraceback ++ ctxs.map Ctx.toTracepoint
      ∧ (applyContexts e ctxs).getType = e.getType := by
  have hc := applyContexts_spec (Exception.ctor type file line func message) ctxs
  have he := applyContexts_spec e ctxs
  refine ⟨hc.1, ?_, hc.2, he.1, he.2⟩
  rw [Exception.getTraceback, hc.1]
  simp [Exception.ctor, Nat.add_comm]

/-- C4: `clone` yields an Error with the same kind and traceback, and
the two objects share no mutable state — adding a tracepoint to either
one observably leaves the other at its old traceback (their tracebacks
then differ). -/
theorem clone_equal_independent (e : Exception) (file : String) (line : Int)
    (func message : String) :
    e.clone.getType = e.getType
      ∧ e.clone.getTraceback = e.getTraceback
      ∧ (e.addMessage file line func message).getTraceback ≠ e.clone.getTraceback
      ∧ (e.clone.addMessage file line func message).getTraceback ≠ e.getTraceback := by
  refine ⟨rfl, rfl, ?_, ?_⟩ <;>
  · intro h
    have hl := congrArg List.length h
    simp only [Exception.addMessage, Exception.getTraceback, Exception.clone,
      List.length_append, List.length_cons, List.length_nil] at hl
    omega

/-- C5: `what` (`toDisplayString`) returns exactly the text `addToStream`
writes to an initially empty in-memory stream. -/
theorem what_eq_render (e : Exception) :
    e.what = e.addToStream "" := by
  rw [Exception.what, Exception.whatE, addToStreamE_none]

/-- C6 counterexample: on a stream whose first write fails, `addToStream`
propagates the failure (there is no `try`/`catch` in it) instead of
degrading to emitting the kind — the claim that render itself never
raises and falls back to the bare kind is false. -/
theorem render_propagates_failure_cex :
    (Exception.ctor "lsst::pex::exceptions::Exception" "a.cc" 10 "f"
        "boom").addToStreamE ⟨"", some 0⟩ = Except.error () := by
  rfl

/-- C6 amended: writing to the destination stream is `addToStream`'s
only effect — on a stream whose writes succeed it writes exactly the
rendered report and succeeds, any successful run wrote exactly the
report, and if a write fails (here: the first one, on a non-empty
traceback) the failure propagates to the caller instead of degrading to
the bare kind; the degrade-to-kind fallback lives in `what`, not here. -/
theorem render_only_writes (e : Exception) (b : String) (st s2 : OStream)
    (h : e.getTraceback ≠ []) :
    e.addToStreamE ⟨b, none⟩ = Except.ok ⟨e.addToStream b, none⟩
      ∧ (e.addToStreamE st = Except.ok s2 → s2.buf = e.addToStream st.buf)
      ∧ e.addToStreamE ⟨b, some 0⟩ = Except.error () := by
  refine ⟨addToStreamE_none e b, fun hok => addToStreamE_ok e st s2 hok, ?_⟩
  obtain ⟨ty, tb⟩ := e
  cases tb with
  | nil => exact absurd rfl h
  | cons t0 rest => rfl

/-- Witness for the amended C6 at a concrete Error and streams. -/
theorem render_only_writes_witness :
    (Exception.ctor "Err" "a.cc" 1 "f" "m").getTraceback ≠ []
      ∧ ((Exception.ctor "Err" "a.cc" 1 "f" "m").addToStreamE ⟨"x", none⟩
            = Except.ok ⟨(Exception.ctor "Err" "a.cc" 1 "f" "m").addToStream "x", none⟩
        ∧ ((Exception.ctor "Err" "a.cc" 1 "f" "m").addToStreamE ⟨"", none⟩
              = Except.ok ⟨"y", none⟩ →
            OStream.buf ⟨"y", none⟩
              = (Exception.ctor "Err" "a.cc" 1 "f" "m").addToStream
                  (OStream.buf ⟨"", none⟩))
        ∧ (Exception.ctor "Err" "a.cc" 1 "f" "m").addToStreamE ⟨"x", some 0⟩
            = Except.error ()) :=
  ⟨by decide, render_only_writes (Exception.ctor "Err" "a.cc" 1 "f" "m") "x"
    ⟨"", none⟩ ⟨"y", none⟩ (by decide)⟩

/-- C7: if the internal rendering of `what` fails, `what` returns the
bare kind string (`_type`) instead of propagating the failure. -/
theorem what_fallback (e : Exception) (budget : Option Nat)
    (h : e.addToStreamE ⟨"", budget⟩ = Except.error ()) :
    e.whatE budget = e.getType := by
  rw [Exception.whatE, h]
  rfl

/-- Witness for C7: a concrete Error whose internal rendering fails at
the first write; `what` returns its kind. -/
theorem what_fallback_witness :
    (Exception.ctor "MyError" "x.cc" 3 "g" "m").addToStreamE ⟨"", some 0⟩
        = Except.error ()
      ∧ (Exception.ctor "MyError" "x.cc" 3 "g" "m").whatE (some 0)
        = (Exception.ctor "MyError" "x.cc" 3 "g" "m").getType :=
  ⟨rfl, what_fallback (Exception.ctor "MyError" "x.cc" 3 "g" "m") (some 0) rfl⟩

/-- C8: an Error with an empty traceback renders as no output at all —
the pure model returns the stream unchanged, and the fallible model
succeeds without performing any write. -/
theorem render_empty_traceback (e : Exception) (s : String) (st : OStream)
    (h : e.getTraceback = []) :
    e.addToStream s = s ∧ e.addToStreamE st = Except.ok st := by
  obtain ⟨ty, tb⟩ := e
  have htb : tb = [] := h
  subst htb
  exact ⟨rfl, rfl⟩

/-- Witness for C8: an Error built with an empty traceback, bypassing
the normal constructor. -/
theorem render_empty_traceback_witness :
    (⟨"SomeError", []⟩ : Exception).getTraceback = []
      ∧ ((⟨"SomeError", []⟩ : Exception).addToStream "pre" = "pre"
        ∧ (⟨"SomeError", []⟩ : Exception).addToStreamE ⟨"", some 0⟩
            = Except.ok ⟨"", some 0⟩) :=
  ⟨rfl, render_empty_traceback ⟨"SomeError", []⟩ "pre" ⟨"", some 0⟩ rfl⟩

/-- C9: starting from a fully constructed Error, any sequence of the
public operations leaves the traceback of length at least one, and the
original traceback is a prefix of the final one; each single operation
at most appends to the traceback (never removes or reorders). -/
theorem traceback_invariant (type file : String) (line : Int)
    (func message : String) (ops : List Op) :
    1 ≤ (runOps (Exception.ctor type file line func message) ops).getTraceback.length
      ∧ (∃ t, (runOps (Exception.ctor type file line func message) ops).getTraceback
          = (Exception.ctor type file line func message).getTraceback ++ t)
      ∧ ∀ (e : Exception) (op : Op),
          ∃ t, (applyOp e op).getTraceback = e.getTraceback ++ t := by
  obtain ⟨t, ht⟩ := runOps_suffix (Exception.ctor type file line func message) ops
  refine ⟨?_, ⟨t, ht⟩, fun e op => applyOp_suffix e op⟩
  rw [Exception.getTraceback, ht]
  simp [Exception.ctor]

/-- C10: the stream-insertion operator returns exactly `addToStream`
applied to the given stream — the same text is written, appended after
the stream's prior contents, in both the pure and the fallible model. -/
theorem streamInsert_equiv (s : String) (st : OStream) (e : Exception) :
    streamInsert s e = e.addToStream s
      ∧ streamInsert s e = s ++ e.addToStream ""
      ∧ streamInsertE st e = e.addToStreamE st := by
  refine ⟨rfl, ?_, rfl⟩
  rw [streamInsert, addToStream_eq, addToStream_eq, String.empty_append]

end pexExcept
